import Mathlib

/-
Verification of the pg-helper query builder (src/index.js).

The JavaScript source is shallowly embedded as follows:
 - JS scalar values (the contents of column/value objects) are modelled by
   the inductive type JSV, which includes the JS undefined value;
 - a JS object used as a column/value mapping is an association list
   List (String × JSV) in enumeration (insertion) order; property access
   obj[k] on such an object is getProp, returning JSV.undef when absent;
 - the database client capability (pg) is a function
   DB : String → List JSV → Except String (List Row); a thrown JS error is
   the Except.error case carrying the message;
 - every operation returns, together with its result, the list of
   statements it issued to the database (a writer-style trace), so that
   the property "no statement is issued" is structural;
 - JS template-literal number rendering is natStr (decimal numerals);
   Array.prototype.join is joinSep; Array.prototype.map with the index
   argument is mapIdxFrom applied at start index 0.
-/

namespace PgHelper

/-- JavaScript scalar values, including undefined. -/
inductive JSV where
  | undef : JSV
  | null : JSV
  | num : Int → JSV
  | str : String → JSV
  | boolean : Bool → JSV
deriving DecidableEq, Repr

/-- A row returned by the database: a mapping from column names to values. -/
abbrev Row := List (String × JSV)

/-- A parameterized statement: SQL text plus the ordered bound-value list. -/
abbrev Stmt := String × List JSV

/-- The injected database-client capability: executes one statement and
either returns rows or throws (Except.error with the message). -/
abbrev DB := String → List JSV → Except String (List Row)

/-- JS property access obj[k]: the first binding of k, or undefined. -/
def getProp (row : Row) (k : String) : JSV :=
  (row.lookup k).getD JSV.undef

/-- Decimal digits of n, least significant first, by structural recursion on
a fuel argument (fuel at least n), mirroring Nat.digits 10. -/
def natDigitsCore : Nat → Nat → List Nat
  | 0, _ => []
  | _ + 1, 0 => []
  | fuel + 1, n + 1 => (n + 1) % 10 :: natDigitsCore fuel ((n + 1) / 10)

/-- The character for one decimal digit. -/
def digitChar : Nat → Char
  | 0 => '0'
  | 1 => '1'
  | 2 => '2'
  | 3 => '3'
  | 4 => '4'
  | 5 => '5'
  | 6 => '6'
  | 7 => '7'
  | 8 => '8'
  | 9 => '9'
  | _ => '*'

/-- The decimal numeral of n as a character list, most significant first. -/
def natDigits (n : Nat) : List Char :=
  ((natDigitsCore n n).map digitChar).reverse

/-- The decimal numeral of n as a string: the embedding of JS
number-to-string conversion inside a template literal (for Nat values). -/
def natStr (n : Nat) : String :=
  ⟨natDigits n⟩

/-- Array.prototype.join with a separator: empty for the empty array, no
trailing separator otherwise. -/
def joinSep (sep : String) : List String → String
  | [] => ""
  | [s] => s
  | s :: rest => s ++ sep ++ joinSep sep rest

/-- Array.prototype.map with the element index: mapIdxFrom f a l applies f
to indices a, a+1, ... (the JS call sites use start index 0). -/
def mapIdxFrom (f : Nat → α → β) : Nat → List α → List β
  | _, [] => []
  | a, x :: l => f a x :: mapIdxFrom f (a + 1) l

/-- Connection-lifecycle events of the query wrapper (claim C9): acquiring
a pooled client, executing a statement on it, releasing it. -/
inductive Ev where
  | acquire : Ev
  | exec : String → List JSV → Ev
  | release : Ev
deriving DecidableEq, Repr

/-- JS try-finally over an event-traced computation: the finally events
always run, and the result (ok or thrown) of the body is kept. -/
def tryFinallyEv (body : List Ev × Except String (List Row)) (fin : List Ev) :
    List Ev × Except String (List Row) :=
  (body.1 ++ fin, body.2)

/-- The query wrapper (src/index.js lines 19-27): acquire a client from the
pool, run one statement in a try block, release in the finally block. -/
def query (db : DB) (text : String) (params : List JSV) :
    List Ev × Except String (List Row) :=
  let acquired : List Ev := [Ev.acquire]
  let body : List Ev × Except String (List Row) :=
    ([Ev.exec text params], db text params)
  let t := tryFinallyEv body [Ev.release]
  (acquired ++ t.1, t.2)

/-- Result of one operation: the statements issued plus the outcome. -/
abbrev OpRes (β : Type) := List Stmt × Except String β

/-- Issuing one statement through the query wrapper (the op-level view:
the wrapper executes exactly one statement per call, as proved below). -/
def runQuery (db : DB) (text : String) (params : List JSV) : OpRes (List Row) :=
  ([(text, params)], db text params)

/-- Statement built by insert (src lines 36-44): keys and values in
enumeration order, placeholders numbered from 1. -/
def insertStmt (table : String) (data : List (String × JSV)) : Stmt :=
  let keys := data.map Prod.fst
  let values := data.map Prod.snd
  let placeholders := joinSep ", " (mapIdxFrom (fun i _ => "$" ++ natStr (i + 1)) 0 keys)
  ("INSERT INTO " ++ table ++ " (" ++ joinSep ", " keys ++ ") VALUES (" ++
    placeholders ++ ") RETURNING *;", values)

/-- insert (src lines 35-47): build the statement, execute it, return the
first result row (undefined, i.e. none, when there are no rows). -/
def insert (db : DB) (table : String) (data : List (String × JSV)) :
    OpRes (Option Row) :=
  let s := insertStmt table data
  let r := runQuery db s.1 s.2
  (r.1, r.2.map (fun rows => rows.head?))

/-- Statement built by select (src lines 56-59): equality conditions joined
with AND; the WHERE clause is omitted when the condition string is empty. -/
def selectStmt (table : String) (w : List (String × JSV)) : Stmt :=
  let keys := w.map Prod.fst
  let values := w.map Prod.snd
  let conditions := joinSep " AND " (mapIdxFrom (fun i key => key ++ " = $" ++ natStr (i + 1)) 0 keys)
  ("SELECT * FROM " ++ table ++ (if conditions = "" then "" else " WHERE " ++ conditions) ++ ";",
    values)

/-- select (src lines 55-62): execute the built statement, return all rows. -/
def select (db : DB) (table : String) (w : List (String × JSV)) : OpRes (List Row) :=
  let s := selectStmt table w
  runQuery db s.1 s.2

/-- create (src lines 63-71): CREATE TABLE IF NOT EXISTS with column
definitions interpolated. -/
def create (db : DB) (table : String) (columns : List (String × String)) :
    OpRes (List Row) :=
  let columnDefinitions := joinSep ", " (columns.map (fun kv => kv.1 ++ " " ++ kv.2))
  runQuery db ("CREATE TABLE IF NOT EXISTS " ++ table ++ " (" ++ columnDefinitions ++ ");") []

/-- The changes argument of alterTable: each field is absent (none, JS
undefined, falsy) or present (some, a JS object or array, truthy even when
empty). -/
structure Changes where
  add : Option (List (String × String))
  drop : Option (List String)
  modify : Option (List (String × String))

/-- alterTable (src lines 78-111): collect ADD COLUMN, DROP COLUMN and
ALTER COLUMN TYPE sub-clauses; throw before issuing anything when the
collected list is empty. -/
def alterTable (db : DB) (table : String) (changes : Changes) : OpRes (List Row) :=
  let addClauses := match changes.add with
    | some l => l.map (fun kv => "ADD COLUMN " ++ kv.1 ++ " " ++ kv.2)
    | none => []
  let dropClauses := match changes.drop with
    | some l => l.map (fun c => "DROP COLUMN " ++ c)
    | none => []
  let modifyClauses := match changes.modify with
    | some l => l.map (fun kv => "ALTER COLUMN " ++ kv.1 ++ " TYPE " ++ kv.2)
    | none => []
  let alterations := addClauses ++ dropClauses ++ modifyClauses
  if alterations = [] then
    ([], Except.error "No valid alterations provided.")
  else
    runQuery db ("ALTER TABLE " ++ table ++ " " ++ joinSep ", " alterations ++ ";") []

/-- The identifier test of createDB and drop: the JS regular expression
anchored character class of letters, digits and underscore, one or more. -/
def validNameRegex (s : String) : Bool :=
  !s.data.isEmpty && s.data.all (fun c => c.isAlphanum || c = '_')

/-- createDB (src lines 113-121): validate the name, then CREATE DATABASE. -/
def createDB (db : DB) (database : String) : OpRes (List Row) :=
  if !validNameRegex database then
    ([], Except.error "Invalid database name")
  else
    runQuery db ("CREATE DATABASE " ++ database) []

/-- drop (src lines 129-146): validate the name, then dispatch on the type
string; the column and fall-through branches throw. -/
def drop (db : DB) (type : String) (name : String) : OpRes (List Row) :=
  if !validNameRegex name then
    ([], Except.error "Invalid name provided. Only alphanumeric characters and underscores are allowed.")
  else if type = "table" then
    runQuery db ("DROP TABLE IF EXISTS " ++ name) []
  else if type = "database" then
    runQuery db ("DROP DATABASE IF EXISTS " ++ name) []
  else if type = "column" then
    ([], Except.error "Columns cannot be dropped using this function, use the alterTable function to drop columns.")
  else
    ([], Except.error ("Invalid type (" ++ type ++ ") provided. Use \"table\" or \"database\"."))

/-- Statement built by update (src lines 148-155): SET clauses numbered
from 1, WHERE clauses numbered continuing after the SET count, values in
SET-then-WHERE order. -/
def updateStmt (table : String) (data w : List (String × JSV)) : Stmt :=
  let setString := joinSep ", "
    (mapIdxFrom (fun i key => key ++ " = $" ++ natStr (i + 1)) 0 (data.map Prod.fst))
  let whereString := joinSep " AND "
    (mapIdxFrom (fun i key => key ++ " = $" ++ natStr (i + 1 + (data.map Prod.fst).length)) 0
      (w.map Prod.fst))
  ("UPDATE " ++ table ++ " SET " ++ setString ++ " WHERE " ++ whereString ++ ";",
    data.map Prod.snd ++ w.map Prod.snd)

/-- update (src lines 147-157): execute the built statement; the function
body ends without a return statement, so the JS result is undefined (Unit
here), discarding rows and any affected-row count. -/
def update (db : DB) (table : String) (data w : List (String × JSV)) : OpRes Unit :=
  let s := updateStmt table data w
  let r := runQuery db s.1 s.2
  (r.1, r.2.map (fun _ => ()))

/-- Statement built by insertBulk (src lines 161-168): keys from the first
row, one parenthesized placeholder tuple per row with index
row * keyCount + column + 1, values flattened in row-major order. -/
def insertBulkStmt (table : String) (dataArray : List Row) : Stmt :=
  let keys := (dataArray.headI).map Prod.fst
  let values := dataArray.map (fun obj => keys.map (fun k => getProp obj k))
  let placeholders := joinSep ", "
    (mapIdxFrom (fun i row =>
      "(" ++ joinSep ", " (mapIdxFrom (fun j _ => "$" ++ natStr (i * keys.length + j + 1)) 0 row) ++ ")")
      0 values)
  ("INSERT INTO " ++ table ++ " (" ++ joinSep ", " keys ++ ") VALUES " ++
    placeholders ++ " RETURNING *;", values.flatten)

/-- insertBulk (src lines 158-170): throw on an empty array before issuing
anything, otherwise execute the one multi-row statement and return all
returned rows. -/
def insertBulk (db : DB) (table : String) (dataArray : List Row) : OpRes (List Row) :=
  if dataArray.length = 0 then
    ([], Except.error "No data provided for bulk insert.")
  else
    let s := insertBulkStmt table dataArray
    runQuery db s.1 s.2

/-- The catch-and-replace pattern of the exported wrappers: on any failure
of the wrapped call, re-throw a fixed message instead. -/
def wrapOp (r : OpRes β) (msg : String) : OpRes β :=
  match r.2 with
  | Except.error _ => (r.1, Except.error msg)
  | Except.ok _ => r

/-- updateTable (src lines 184-192). -/
def updateTable (db : DB) (table : String) (data w : List (String × JSV)) : OpRes Unit :=
  wrapOp (update db table data w) "Failed to update the table."

/-- createTable (src lines 193-200). -/
def createTable (db : DB) (table : String) (columns : List (String × String)) : OpRes (List Row) :=
  wrapOp (create db table columns) "Failed to execute database query."

/-- The data argument of insertIntoTable: a single row object or an array
of row objects (the JS Array.isArray dispatch). -/
inductive InsertData where
  | obj : List (String × JSV) → InsertData
  | arr : List Row → InsertData

/-- Result of insertIntoTable: one row (possibly undefined) from the single
insert, or the row list from the bulk insert. -/
inductive InsertResult where
  | one : Option Row → InsertResult
  | many : List Row → InsertResult
deriving DecidableEq

/-- insertIntoTable (src lines 201-211): dispatch on Array.isArray, wrap
any failure in a message naming the table. -/
def insertIntoTable (db : DB) (table : String) (data : InsertData) : OpRes InsertResult :=
  let r : OpRes InsertResult := match data with
    | InsertData.arr dataArray =>
        let b := insertBulk db table dataArray
        (b.1, b.2.map InsertResult.many)
    | InsertData.obj d =>
        let s := insert db table d
        (s.1, s.2.map InsertResult.one)
  wrapOp r ("Failed to insert into \x27" ++ table ++ "\x27.")

/-- selectFromTable (src lines 212-219); the omitted-filter default is the
empty mapping. -/
def selectFromTable (db : DB) (table : String) (w : List (String × JSV)) : OpRes (List Row) :=
  wrapOp (select db table w) "Failed to execute database query."

/-- dropTable (src lines 220-227). -/
def dropTable (db : DB) (name : String) : OpRes (List Row) :=
  wrapOp (drop db "table" name) "Failed to execute database query."

/-- dropDatabase (src lines 229-236). -/
def dropDatabase (db : DB) (name : String) : OpRes (List Row) :=
  wrapOp (drop db "database" name) "Failed to execute database query."

/-- The column argument of dropColumn: a plain string or an array. -/
inductive ColArg where
  | single : String → ColArg
  | list : List String → ColArg

/-- dropColumn (src lines 237-242): normalize a single column into a
one-element array and delegate to alterTable; there is no try-catch here. -/
def dropColumn (db : DB) (table : String) (column : ColArg) : OpRes (List Row) :=
  let columns := match column with
    | ColArg.single c => [c]
    | ColArg.list cs => cs
  alterTable db table { add := none, drop := some columns, modify := none }

/-- createDatabase (src lines 243-250). -/
def createDatabase (db : DB) (name : String) : OpRes (List Row) :=
  wrapOp (createDB db name) "Failed to execute database query."

/-- modifyColumns (src lines 251-258). -/
def modifyColumns (db : DB) (table : String) (columns : List (String × String)) : OpRes (List Row) :=
  wrapOp (alterTable db table { add := none, drop := none, modify := some columns })
    "Failed to execute database query."

/-- addColumns (src lines 259-266); the JS template literal stringifies the
columns object as the text between the first pair of quotes. -/
def addColumns (db : DB) (table : String) (columns : List (String × String)) : OpRes (List Row) :=
  wrapOp (alterTable db table { add := some columns, drop := none, modify := none })
    ("Failed to add \x27[object Object]\x27 to \x27" ++ table ++ "\x27.")

/-- Numeric value of one digit character. -/
def digitVal (c : Char) : Nat := c.toNat - 48

/-- Numeric value of a run of digit characters, most significant first. -/
def digitsToNat (cs : List Char) : Nat := cs.foldl (fun a c => 10 * a + digitVal c) 0

theorem length_dropWhile_le (p : α → Bool) (l : List α) :
    (l.dropWhile p).length ≤ l.length := by
  induction l with
  | nil => simp [List.dropWhile]
  | cons a l ih =>
    by_cases h : p a
    · simp only [List.dropWhile, h]
      exact ih.trans (Nat.le_succ _)
    · simp [List.dropWhile, h]

/-- Scanner for positional placeholders in SQL text: each dollar sign
followed by a nonempty maximal run of decimal digits contributes that
number, in text order (maximal munch, as the database parses them). -/
def scanPh : List Char → List Nat
  | [] => []
  | c :: cs =>
    if c = '$' then
      if (cs.takeWhile Char.isDigit).isEmpty then scanPh cs
      else digitsToNat (cs.takeWhile Char.isDigit) :: scanPh (cs.dropWhile Char.isDigit)
    else scanPh cs
termination_by l => l.length
decreasing_by
  all_goals simp only [List.length_cons]
  · omega
  · exact Nat.lt_succ_of_le (length_dropWhile_le _ _)
  · omega

theorem natDigitsCore_eq (fuel n : Nat) (h : n ≤ fuel) :
    natDigitsCore fuel n = Nat.digits 10 n := by
  induction fuel generalizing n with
  | zero =>
    interval_cases n
    simp [natDigitsCore]
  | succ fuel ih =>
    cases n with
    | zero => simp [natDigitsCore]
    | succ n =>
      rw [natDigitsCore, Nat.digits_def' (by norm_num : (1:Nat) < 10) (Nat.succ_pos n)]
      congr 1
      apply ih
      have hlt : (n + 1) / 10 < n + 1 := Nat.div_lt_self (Nat.succ_pos n) (by norm_num)
      omega

theorem natDigits_eq (n : Nat) : natDigits n = ((Nat.digits 10 n).map digitChar).reverse := by
  rw [natDigits, natDigitsCore_eq n n (Nat.le_refl n)]

theorem digitChar_isDigit {d : Nat} (h : d < 10) : (digitChar d).isDigit = true := by
  interval_cases d <;> decide

theorem digitVal_digitChar {d : Nat} (h : d < 10) : digitVal (digitChar d) = d := by
  interval_cases d <;> decide

theorem natDigits_all_digits (n : Nat) : ∀ c ∈ natDigits n, c.isDigit = true := by
  rw [natDigits_eq]
  intro c hc
  rw [List.mem_reverse, List.mem_map] at hc
  obtain ⟨d, hd, rfl⟩ := hc
  exact digitChar_isDigit (Nat.digits_lt_base (by norm_num) hd)

theorem natDigits_ne_nil {n : Nat} (h : n ≠ 0) : natDigits n ≠ [] := by
  rw [natDigits_eq]
  simp [Nat.digits_ne_nil_iff_ne_zero, h]

theorem foldr_ofDigits (L : List Nat) :
    L.foldr (fun d a => 10 * a + d) 0 = Nat.ofDigits 10 L := by
  induction L with
  | nil => simp [Nat.ofDigits]
  | cons d L ih =>
    rw [List.foldr_cons, ih, Nat.ofDigits_cons]
    ring

theorem digitsToNat_natDigits (n : Nat) : digitsToNat (natDigits n) = n := by
  rw [digitsToNat, natDigits_eq, List.foldl_reverse]
  have h1 : (List.map digitChar (Nat.digits 10 n)).foldr
      (fun a b => 10 * b + digitVal a) 0
      = (Nat.digits 10 n).foldr (fun d b => 10 * b + digitVal (digitChar d)) 0 :=
    List.foldr_map _ _ _ _
  rw [h1]
  have h2 : ∀ L : List Nat, (∀ d ∈ L, d < 10) →
      L.foldr (fun d b => 10 * b + digitVal (digitChar d)) 0
      = L.foldr (fun d b => 10 * b + d) 0 := by
    intro L
    induction L with
    | nil => intro _; rfl
    | cons d L ih =>
      intro hall
      simp only [List.foldr_cons]
      rw [digitVal_digitChar (hall d (List.mem_cons_self d L)),
        ih (fun e he => hall e (List.mem_cons_of_mem d he))]
  rw [h2 _ (fun d hd => Nat.digits_lt_base (by norm_num) hd)]
  have h3 : (Nat.digits 10 n).foldr (fun d b => 10 * b + d) 0
      = (Nat.digits 10 n).foldr (fun d a => 10 * a + d) 0 := rfl
  rw [h3, foldr_ofDigits, Nat.ofDigits_digits]

theorem scanPh_nil : scanPh [] = [] := by rw [scanPh]

theorem scanPh_cons_ne (c : Char) (cs : List Char) (h : c ≠ '$') :
    scanPh (c :: cs) = scanPh cs := by
  rw [scanPh]
  simp [h]

theorem scanPh_append_no_dollar (s t : List Char) (h : '$' ∉ s) :
    scanPh (s ++ t) = scanPh t := by
  induction s with
  | nil => rfl
  | cons c s ih =>
    rw [List.cons_append, scanPh_cons_ne c _ (fun hc => h (hc ▸ List.mem_cons_self c s))]
    exact ih (fun hm => h (List.mem_cons_of_mem c hm))

theorem scanPh_no_dollar (s : List Char) (h : '$' ∉ s) : scanPh s = [] := by
  have := scanPh_append_no_dollar s [] h
  rwa [List.append_nil, scanPh_nil] at this

/-- Character lists whose first character, if any, is not a decimal digit:
the shape of everything that may follow a placeholder numeral. -/
def noDigitHead : List Char → Prop
  | [] => True
  | c :: _ => c.isDigit = false

instance : (l : List Char) → Decidable (noDigitHead l)
  | [] => Decidable.isTrue trivial
  | c :: _ => inferInstanceAs (Decidable (c.isDigit = false))

theorem takeWhile_digits_eq_nil (t : List Char) (h : noDigitHead t) :
    t.takeWhile Char.isDigit = [] := by
  cases t with
  | nil => rfl
  | cons c t =>
    simp only [noDigitHead] at h
    simp [List.takeWhile_cons, h]

theorem dropWhile_digits_eq_self (t : List Char) (h : noDigitHead t) :
    t.dropWhile Char.isDigit = t := by
  cases t with
  | nil => rfl
  | cons c t =>
    simp only [noDigitHead] at h
    simp [List.dropWhile_cons, h]

theorem scanPh_token (ds t : List Char) (hds : ∀ c ∈ ds, c.isDigit = true)
    (hne : ds ≠ []) (ht : noDigitHead t) :
    scanPh ('$' :: (ds ++ t)) = digitsToNat ds :: scanPh t := by
  rw [scanPh]
  have htake : (ds ++ t).takeWhile Char.isDigit = ds := by
    rw [List.takeWhile_append_of_pos hds, takeWhile_digits_eq_nil t ht, List.append_nil]
  have hdrop : (ds ++ t).dropWhile Char.isDigit = t := by
    rw [List.dropWhile_append_of_pos hds, dropWhile_digits_eq_self t ht]
  simp only [htake, hdrop]
  simp [List.isEmpty_iff, hne]

/-- A segment of SQL text: a placeholder-free prefix followed by one
dollar-sign placeholder with the given number. -/
def phSegs : List (List Char × Nat) → List Char
  | [] => []
  | (p, n) :: rest => p ++ '$' :: (natDigits n ++ phSegs rest)

/-- All segments after the first start with a non-digit character (the
first character of a separator), so numerals never run together. -/
def midOk : List (List Char × Nat) → Prop
  | [] => True
  | _ :: rest => ∀ pn ∈ rest, noDigitHead pn.1

theorem noDigitHead_phSegs_append (segs : List (List Char × Nat)) (t : List Char)
    (hsegs : ∀ pn ∈ segs, noDigitHead pn.1) (ht : noDigitHead t) :
    noDigitHead (phSegs segs ++ t) := by
  cases segs with
  | nil => simpa [phSegs] using ht
  | cons pn rest =>
    obtain ⟨p, n⟩ := pn
    have hp : noDigitHead p := hsegs (p, n) (List.mem_cons_self _ _)
    cases p with
    | nil => simp [phSegs, noDigitHead]
    | cons c p' =>
      simp only [noDigitHead] at hp
      simp [phSegs, noDigitHead, hp]

theorem scanPh_phSegs (segs : List (List Char × Nat)) (t : List Char)
    (hdollar : ∀ pn ∈ segs, '$' ∉ pn.1)
    (hnz : ∀ pn ∈ segs, pn.2 ≠ 0)
    (hmid : midOk segs)
    (ht : noDigitHead t) :
    scanPh (phSegs segs ++ t) = segs.map Prod.snd ++ scanPh t := by
  induction segs with
  | nil => simp [phSegs]
  | cons pn rest ih =>
    obtain ⟨p, n⟩ := pn
    have hrest : ∀ q ∈ rest, noDigitHead q.1 := by
      intro q hq
      exact hmid q hq
    have hcont : noDigitHead (phSegs rest ++ t) :=
      noDigitHead_phSegs_append rest t hrest ht
    have h1 : phSegs ((p, n) :: rest) ++ t = p ++ ('$' :: (natDigits n ++ (phSegs rest ++ t))) := by
      simp [phSegs, List.append_assoc]
    rw [h1, scanPh_append_no_dollar p _ (hdollar (p, n) (List.mem_cons_self _ _)),
      scanPh_token (natDigits n) _ (natDigits_all_digits n)
        (natDigits_ne_nil (hnz (p, n) (List.mem_cons_self _ _))) hcont,
      digitsToNat_natDigits]
    have hmid' : midOk rest := by
      cases rest with
      | nil => trivial
      | cons q r =>
        intro q' hq'
        exact hrest q' (List.mem_cons_of_mem q hq')
    rw [ih (fun q hq => hdollar q (List.mem_cons_of_mem _ hq))
      (fun q hq => hnz q (List.mem_cons_of_mem _ hq)) hmid' ]
    simp

theorem data_append (s t : String) : (s ++ t).data = s.data ++ t.data := rfl

theorem joinSep_nil (sep : String) : joinSep sep [] = "" := rfl

theorem joinSep_single (sep : String) (s : String) : joinSep sep [s] = s := rfl

theorem joinSep_cons_cons (sep s t : String) (rest : List String) :
    joinSep sep (s :: t :: rest) = s ++ sep ++ joinSep sep (t :: rest) := rfl

theorem joinSep_cons_of_ne (sep s : String) (l : List String) (h : l ≠ []) :
    joinSep sep (s :: l) = s ++ sep ++ joinSep sep l := by
  cases l with
  | nil => exact absurd rfl h
  | cons t r => rfl

theorem joinSep_no_dollar (sep : String) (l : List String)
    (hsep : '$' ∉ sep.data) (hall : ∀ s ∈ l, '$' ∉ s.data) :
    '$' ∉ (joinSep sep l).data := by
  induction l with
  | nil => simp [joinSep_nil]
  | cons s rest ih =>
    cases rest with
    | nil =>
      rw [joinSep_single]
      exact hall s (List.mem_cons_self _ _)
    | cons t r =>
      rw [joinSep_cons_cons, data_append, data_append]
      intro hm
      rcases List.mem_append.mp hm with hm' | hm'
      · rcases List.mem_append.mp hm' with hm'' | hm''
        · exact hall s (List.mem_cons_self _ _) hm''
        · exact hsep hm''
      · exact ih (fun u hu => hall u (List.mem_cons_of_mem _ hu)) hm'

theorem mapIdxFrom_congr (f g : Nat → α → β) (a : Nat) (l : List α)
    (h : ∀ i x, f i x = g i x) : mapIdxFrom f a l = mapIdxFrom g a l := by
  induction l generalizing a with
  | nil => rfl
  | cons x l ih => simp [mapIdxFrom, h, ih]

theorem mapIdxFrom_fn (g : Nat → β) (a : Nat) (l : List α) :
    mapIdxFrom (fun i _ => g i) a l = (List.range' a l.length).map g := by
  induction l generalizing a with
  | nil => rfl
  | cons x l ih =>
    rw [mapIdxFrom, List.length_cons, List.range'_succ, List.map_cons, ih]

theorem range'_map_shift (n : Nat) (f : Nat → α) :
    ∀ a c : Nat, (List.range' a n).map (fun j => f (j + c)) = (List.range' (a + c) n).map f := by
  induction n with
  | zero => intro a c; rfl
  | succ n ih =>
    intro a c
    rw [List.range'_succ, List.range'_succ, List.map_cons, List.map_cons, ih (a + 1) c]
    have h1 : a + 1 + c = a + c + 1 := by omega
    rw [h1]

theorem mapIdxFrom_token (keys : List String) (a : Nat) :
    ∀ b : Nat, mapIdxFrom (fun i k => k ++ " = $" ++ natStr (i + a)) b keys
      = ((keys.zip (List.range' (b + a) keys.length)).map
          (fun p => p.1 ++ " = $" ++ natStr p.2)) := by
  induction keys with
  | nil => intro b; rfl
  | cons k ks ih =>
    intro b
    rw [mapIdxFrom, List.length_cons, List.range'_succ, List.zip_cons_cons, List.map_cons,
      ih (b + 1)]
    have h1 : b + 1 + a = b + a + 1 := by omega
    rw [h1]

/-- Segments with a first prefix and a uniform separator prefix for the
later placeholders: the shape of a joined placeholder-only list. -/
def segsFor (pre mid : List Char) : List Nat → List (List Char × Nat)
  | [] => []
  | i :: is => (pre, i) :: is.map (fun j => (mid, j))

/-- Segments of a joined condition list: each key followed by an equals
sign and a placeholder, later ones preceded by the separator. -/
def condSegs (sepD : List Char) : List (String × Nat) → List (List Char × Nat)
  | [] => []
  | p :: rest =>
    (p.1.data ++ (" = ").data, p.2) ::
      rest.map (fun q => (sepD ++ q.1.data ++ (" = ").data, q.2))

theorem phSegs_prepend (x p : List Char) (n : Nat) (rest : List (List Char × Nat)) :
    x ++ phSegs ((p, n) :: rest) = phSegs ((x ++ p, n) :: rest) := by
  simp [phSegs, List.append_assoc]

theorem joinSep_ph_data (idxs : List Nat) :
    (joinSep ", " (idxs.map (fun i => "$" ++ natStr i))).data
      = phSegs (segsFor [] (", ").data idxs) := by
  induction idxs with
  | nil => rfl
  | cons i is ih =>
    cases is with
    | nil =>
      show ("$" ++ natStr i).data = phSegs [([], i)]
      rw [data_append]
      simp [phSegs, natStr]
    | cons j is' =>
      have hmap : (i :: j :: is').map (fun x => "$" ++ natStr x)
          = ("$" ++ natStr i) :: ("$" ++ natStr j) :: is'.map (fun x => "$" ++ natStr x) := rfl
      rw [hmap, joinSep_cons_cons, data_append, data_append]
      have ih' := ih
      rw [List.map_cons] at ih'
      rw [List.append_assoc, ih']
      have h2 : (", ").data ++ phSegs (segsFor [] (", ").data (j :: is'))
          = phSegs (segsFor (", ").data (", ").data (j :: is')) := by
        show (", ").data ++ phSegs (([], j) :: is'.map (fun x => ((", ").data, x))) = _
        rw [phSegs_prepend]
        rfl
      rw [h2]
      show ("$" ++ natStr i).data ++ phSegs ((j :: is').map (fun x => ((", ").data, x)))
        = phSegs (([], i) :: (j :: is').map (fun x => ((", ").data, x)))
      rw [data_append]
      simp [phSegs, natStr]

theorem joinSep_cond_data (sep : String) (pairs : List (String × Nat)) :
    (joinSep sep (pairs.map (fun p => p.1 ++ " = $" ++ natStr p.2))).data
      = phSegs (condSegs sep.data pairs) := by
  have tok_data : ∀ p : String × Nat,
      (p.1 ++ " = $" ++ natStr p.2).data
        = (p.1.data ++ (" = ").data) ++ '$' :: natDigits p.2 := by
    intro p
    rw [data_append, data_append]
    simp [natStr, List.append_assoc]
  induction pairs with
  | nil => rfl
  | cons p rest ih =>
    cases rest with
    | nil =>
      rw [List.map_cons, List.map_nil, joinSep_single, tok_data]
      simp [condSegs, phSegs]
    | cons q r =>
      have hmap : (p :: q :: r).map (fun u => u.1 ++ " = $" ++ natStr u.2)
          = (p.1 ++ " = $" ++ natStr p.2) :: (q.1 ++ " = $" ++ natStr q.2)
            :: r.map (fun u => u.1 ++ " = $" ++ natStr u.2) := rfl
      rw [hmap, joinSep_cons_cons, data_append, data_append]
      have ih' := ih
      rw [List.map_cons] at ih'
      rw [List.append_assoc, ih']
      have h2 : sep.data ++ phSegs (condSegs sep.data (q :: r))
          = phSegs ((sep.data ++ (q.1.data ++ (" = ").data), q.2) ::
              r.map (fun u => (sep.data ++ u.1.data ++ (" = ").data, u.2))) := by
        show sep.data ++ phSegs ((q.1.data ++ (" = ").data, q.2) ::
            r.map (fun u => (sep.data ++ u.1.data ++ (" = ").data, u.2))) = _
        rw [phSegs_prepend]
      rw [h2, tok_data]
      have h3 : condSegs sep.data (p :: q :: r)
          = (p.1.data ++ (" = ").data, p.2) ::
              ((sep.data ++ (q.1.data ++ (" = ").data), q.2) ::
                r.map (fun u => (sep.data ++ u.1.data ++ (" = ").data, u.2))) := by
        simp [condSegs, List.map_cons, List.append_assoc]
      rw [h3]
      simp [phSegs]

theorem segsFor_snds (pre mid : List Char) (idxs : List Nat) :
    (segsFor pre mid idxs).map Prod.snd = idxs := by
  cases idxs <;> simp [segsFor]

theorem mem_segsFor {pre mid : List Char} {idxs : List Nat} {pn : List Char × Nat}
    (h : pn ∈ segsFor pre mid idxs) :
    (pn.1 = pre ∨ pn.1 = mid) ∧ pn.2 ∈ idxs := by
  cases idxs with
  | nil => simp [segsFor] at h
  | cons i is =>
    simp only [segsFor, List.mem_cons, List.mem_map] at h
    rcases h with rfl | ⟨j, hj, rfl⟩
    · exact ⟨Or.inl rfl, List.mem_cons_self _ _⟩
    · exact ⟨Or.inr rfl, List.mem_cons_of_mem _ hj⟩

theorem midOk_segsFor (pre mid : List Char) (idxs : List Nat) (hmidh : noDigitHead mid) :
    midOk (segsFor pre mid idxs) := by
  cases idxs with
  | nil => trivial
  | cons i is =>
    show ∀ pn ∈ is.map (fun j => (mid, j)), noDigitHead pn.1
    intro pn hpn
    obtain ⟨j, _, rfl⟩ := List.mem_map.mp hpn
    exact hmidh

theorem scanPh_segsFor (pre mid t : List Char) (idxs : List Nat)
    (hpre : '$' ∉ pre) (hmid : '$' ∉ mid) (hmidh : noDigitHead mid)
    (hnz : ∀ i ∈ idxs, i ≠ 0) (ht : noDigitHead t) :
    scanPh (phSegs (segsFor pre mid idxs) ++ t) = idxs ++ scanPh t := by
  rw [scanPh_phSegs _ _ ?hd ?hz ?hm ht, segsFor_snds]
  case hd =>
    intro pn hpn
    rcases (mem_segsFor hpn).1 with h | h
    · rw [h]; exact hpre
    · rw [h]; exact hmid
  case hz =>
    intro pn hpn
    exact hnz pn.2 (mem_segsFor hpn).2
  case hm => exact midOk_segsFor pre mid idxs hmidh

theorem noDigitHead_cons {c : Char} (h : c.isDigit = false) (t : List Char) :
    noDigitHead (c :: t) := h

theorem noDigitHead_append_left (s x : List Char) (hne : s ≠ [])
    (h : noDigitHead s) : noDigitHead (s ++ x) := by
  cases s with
  | nil => exact absurd rfl hne
  | cons c rest => exact h

theorem condSegs_snds (sepD : List Char) (pairs : List (String × Nat)) :
    (condSegs sepD pairs).map Prod.snd = pairs.map Prod.snd := by
  cases pairs <;> simp [condSegs]

theorem mem_condSegs {sepD : List Char} {pairs : List (String × Nat)}
    {pn : List Char × Nat} (h : pn ∈ condSegs sepD pairs) :
    ∃ q ∈ pairs, pn = (q.1.data ++ (" = ").data, q.2) ∨
      pn = (sepD ++ q.1.data ++ (" = ").data, q.2) := by
  cases pairs with
  | nil => simp [condSegs] at h
  | cons p rest =>
    simp only [condSegs, List.mem_cons, List.mem_map] at h
    rcases h with rfl | ⟨q, hq, rfl⟩
    · exact ⟨p, List.mem_cons_self _ _, Or.inl rfl⟩
    · exact ⟨q, List.mem_cons_of_mem _ hq, Or.inr (by simp [List.append_assoc])⟩

theorem midOk_condSegs (sepD : List Char) (pairs : List (String × Nat))
    (hne : sepD ≠ []) (hh : noDigitHead sepD) : midOk (condSegs sepD pairs) := by
  cases pairs with
  | nil => trivial
  | cons p rest =>
    show ∀ pn ∈ rest.map (fun q => (sepD ++ q.1.data ++ (" = ").data, q.2)), noDigitHead pn.1
    intro pn hpn
    obtain ⟨q, _, rfl⟩ := List.mem_map.mp hpn
    show noDigitHead (sepD ++ q.1.data ++ (" = ").data)
    rw [List.append_assoc]
    exact noDigitHead_append_left sepD _ hne hh

theorem scanPh_condSegs (sep : String) (t : List Char) (pairs : List (String × Nat))
    (hsep : '$' ∉ sep.data) (hsepne : sep.data ≠ []) (hseph : noDigitHead sep.data)
    (hkeys : ∀ p ∈ pairs, '$' ∉ p.1.data) (hnz : ∀ p ∈ pairs, p.2 ≠ 0)
    (ht : noDigitHead t) :
    scanPh (phSegs (condSegs sep.data pairs) ++ t) = pairs.map Prod.snd ++ scanPh t := by
  rw [scanPh_phSegs _ _ ?hd ?hz ?hm ht, condSegs_snds]
  case hd =>
    intro pn hpn
    obtain ⟨q, hq, hcase⟩ := mem_condSegs hpn
    have heq : '$' ∉ (" = ").data := by decide
    rcases hcase with rfl | rfl
    · intro hm
      rcases List.mem_append.mp hm with h | h
      · exact hkeys q hq h
      · exact heq h
    · intro hm
      rcases List.mem_append.mp hm with h | h
      · rcases List.mem_append.mp h with h' | h'
        · exact hsep h'
        · exact hkeys q hq h'
      · exact heq h
  case hz =>
    intro pn hpn
    obtain ⟨q, hq, hcase⟩ := mem_condSegs hpn
    rcases hcase with rfl | rfl <;> exact hnz q hq
  case hm => exact midOk_condSegs sep.data pairs hsepne hseph

theorem no_dollar_append {a b : List Char} (ha : '$' ∉ a) (hb : '$' ∉ b) :
    '$' ∉ a ++ b := by
  intro h
  rcases List.mem_append.mp h with h | h
  · exact ha h
  · exact hb h

theorem mem_range'_one_ne_zero {n i : Nat} (h : i ∈ List.range' 1 n) : i ≠ 0 := by
  rw [List.mem_range'] at h
  obtain ⟨j, _, rfl⟩ := h
  omega

theorem phSegs_cons_ne_nil (p : List Char) (n : Nat) (rest : List (List Char × Nat)) :
    phSegs ((p, n) :: rest) ≠ [] := by
  simp [phSegs]

theorem scanPh_insertStmt (table : String) (data : List (String × JSV))
    (htab : '$' ∉ table.data) (hkeys : ∀ kv ∈ data, '$' ∉ kv.1.data) :
    scanPh (insertStmt table data).1.data
      = List.range' 1 (insertStmt table data).2.length := by
  simp only [insertStmt]
  have hkl : (data.map Prod.fst).length = data.length := List.length_map _ _
  have hP : mapIdxFrom (fun i _ => "$" ++ natStr (i + 1)) 0 (data.map Prod.fst)
      = (List.range' 1 data.length).map (fun i => "$" ++ natStr i) := by
    rw [mapIdxFrom_fn, hkl]
    simpa using range'_map_shift data.length (fun x => "$" ++ natStr x) 0 1
  rw [hP]
  have htext : ("INSERT INTO " ++ table ++ " (" ++ joinSep ", " (data.map Prod.fst) ++
        ") VALUES (" ++ joinSep ", " ((List.range' 1 data.length).map (fun i => "$" ++ natStr i)) ++
        ") RETURNING *;").data
      = (("INSERT INTO ").data ++ (table.data ++ ((" (").data ++
          ((joinSep ", " (data.map Prod.fst)).data ++ (") VALUES (").data))))
        ++ (phSegs (segsFor [] (", ").data (List.range' 1 data.length)) ++ (") RETURNING *;").data) := by
    rw [← joinSep_ph_data]
    simp [data_append, List.append_assoc]
  rw [htext]
  have hH : '$' ∉ ("INSERT INTO ").data ++ (table.data ++ ((" (").data ++
      ((joinSep ", " (data.map Prod.fst)).data ++ (") VALUES (").data))) := by
    refine no_dollar_append (by decide) (no_dollar_append htab (no_dollar_append (by decide)
      (no_dollar_append ?_ (by decide))))
    refine joinSep_no_dollar _ _ (by decide) ?_
    intro s hs
    obtain ⟨kv, hkv, rfl⟩ := List.mem_map.mp hs
    exact hkeys kv hkv
  rw [scanPh_append_no_dollar _ _ hH,
    scanPh_segsFor [] (", ").data _ _ (by decide) (by decide) (by decide)
      (fun i hi => mem_range'_one_ne_zero hi) (by decide),
    scanPh_no_dollar _ (by decide)]
  simp

theorem joinSep_cond_string (sep : String) (pairs : List (String × Nat)) :
    joinSep sep (pairs.map (fun p => p.1 ++ " = $" ++ natStr p.2))
      = String.mk (phSegs (condSegs sep.data pairs)) := by
  have h := joinSep_cond_data sep pairs
  calc joinSep sep (pairs.map (fun p => p.1 ++ " = $" ++ natStr p.2))
      = String.mk (joinSep sep (pairs.map (fun p => p.1 ++ " = $" ++ natStr p.2))).data := rfl
    _ = String.mk (phSegs (condSegs sep.data pairs)) := by rw [h]

theorem scanPh_selectStmt (table : String) (w : List (String × JSV)) (hw : w ≠ [])
    (htab : '$' ∉ table.data) (hkeys : ∀ kv ∈ w, '$' ∉ kv.1.data) :
    scanPh (selectStmt table w).1.data
      = List.range' 1 (selectStmt table w).2.length := by
  simp only [selectStmt]
  have hkl : (w.map Prod.fst).length = w.length := List.length_map _ _
  have hT : mapIdxFrom (fun i key => key ++ " = $" ++ natStr (i + 1)) 0 (w.map Prod.fst)
      = (((w.map Prod.fst).zip (List.range' 1 (w.map Prod.fst).length)).map
          (fun p => p.1 ++ " = $" ++ natStr p.2)) := by
    simpa using mapIdxFrom_token (w.map Prod.fst) 1 0
  rw [hT, joinSep_cond_string]
  set pairs := (w.map Prod.fst).zip (List.range' 1 (w.map Prod.fst).length) with hpairs
  have hpairs_ne : pairs ≠ [] := by
    cases w with
    | nil => exact absurd rfl hw
    | cons kv w' =>
      rw [hpairs]
      simp [List.range'_succ]
  have hcond_ne : ¬(String.mk (phSegs (condSegs (" AND ").data pairs)) = "") := by
    cases hp : pairs with
    | nil => exact absurd hp hpairs_ne
    | cons q r =>
      intro hcontra
      have hdata : phSegs (condSegs (" AND ").data (q :: r)) = [] := by
        have := congrArg String.data hcontra
        simpa using this
      rw [condSegs] at hdata
      exact phSegs_cons_ne_nil _ _ _ hdata
  have hmk : ∀ l : List Char, String.mk l = (⟨l⟩ : String) := fun _ => rfl
  rw [if_neg hcond_ne]
  have htext : ("SELECT * FROM " ++ table ++ (" WHERE " ++ String.mk (phSegs (condSegs (" AND ").data pairs))) ++ ";").data
      = (("SELECT * FROM ").data ++ (table.data ++ (" WHERE ").data))
        ++ (phSegs (condSegs (" AND ").data pairs) ++ (";").data) := by
    simp [data_append, List.append_assoc]
  rw [htext]
  have hH : '$' ∉ ("SELECT * FROM ").data ++ (table.data ++ (" WHERE ").data) :=
    no_dollar_append (by decide) (no_dollar_append htab (by decide))
  have hkeys' : ∀ p ∈ pairs, '$' ∉ p.1.data := by
    intro p hp
    have hmem : p.1 ∈ w.map Prod.fst := (List.of_mem_zip hp).1
    obtain ⟨kv, hkv, hfst⟩ := List.mem_map.mp hmem
    rw [← hfst]
    exact hkeys kv hkv
  have hnz : ∀ p ∈ pairs, p.2 ≠ 0 := by
    intro p hp
    exact mem_range'_one_ne_zero (List.of_mem_zip hp).2
  rw [scanPh_append_no_dollar _ _ hH,
    scanPh_condSegs " AND " _ pairs (by decide) (by decide) (by decide) hkeys' hnz (by decide),
    scanPh_no_dollar _ (by decide)]
  have hsnds : pairs.map Prod.snd = List.range' 1 w.length := by
    rw [hpairs, List.map_snd_zip _ _ (by simp [List.length_range']), hkl]
  rw [hsnds]
  simp

theorem scanPh_updateStmt (table : String) (data w : List (String × JSV))
    (htab : '$' ∉ table.data) (hkeys : ∀ kv ∈ data, '$' ∉ kv.1.data)
    (hwkeys : ∀ kv ∈ w, '$' ∉ kv.1.data) :
    scanPh (updateStmt table data w).1.data
      = List.range' 1 (updateStmt table data w).2.length := by
  simp only [updateStmt]
  have hkl : (data.map Prod.fst).length = data.length := List.length_map _ _
  have hwl : (w.map Prod.fst).length = w.length := List.length_map _ _
  have hS : mapIdxFrom (fun i key => key ++ " = $" ++ natStr (i + 1)) 0 (data.map Prod.fst)
      = (((data.map Prod.fst).zip (List.range' 1 (data.map Prod.fst).length)).map
          (fun p => p.1 ++ " = $" ++ natStr p.2)) := by
    simpa using mapIdxFrom_token (data.map Prod.fst) 1 0
  have hWcong : mapIdxFrom (fun i key => key ++ " = $" ++ natStr (i + 1 + (data.map Prod.fst).length)) 0
        (w.map Prod.fst)
      = mapIdxFrom (fun i key => key ++ " = $" ++ natStr (i + (1 + (data.map Prod.fst).length))) 0
        (w.map Prod.fst) := by
    apply mapIdxFrom_congr
    intro i k
    have h : i + 1 + (data.map Prod.fst).length = i + (1 + (data.map Prod.fst).length) := by omega
    rw [h]
  have hW : mapIdxFrom (fun i key => key ++ " = $" ++ natStr (i + (1 + (data.map Prod.fst).length))) 0
        (w.map Prod.fst)
      = (((w.map Prod.fst).zip (List.range' (1 + (data.map Prod.fst).length) (w.map Prod.fst).length)).map
          (fun p => p.1 ++ " = $" ++ natStr p.2)) := by
    simpa using mapIdxFrom_token (w.map Prod.fst) (1 + (data.map Prod.fst).length) 0
  rw [hS, hWcong, hW]
  set pairs1 := (data.map Prod.fst).zip (List.range' 1 (data.map Prod.fst).length) with hp1
  set pairs2 := (w.map Prod.fst).zip
    (List.range' (1 + (data.map Prod.fst).length) (w.map Prod.fst).length) with hp2
  have htext : ("UPDATE " ++ table ++ " SET " ++
        joinSep ", " (pairs1.map (fun p => p.1 ++ " = $" ++ natStr p.2)) ++ " WHERE " ++
        joinSep " AND " (pairs2.map (fun p => p.1 ++ " = $" ++ natStr p.2)) ++ ";").data
      = (("UPDATE ").data ++ (table.data ++ (" SET ").data))
        ++ (phSegs (condSegs (", ").data pairs1) ++
            ((" WHERE ").data ++ (phSegs (condSegs (" AND ").data pairs2) ++ (";").data))) := by
    rw [← joinSep_cond_data, ← joinSep_cond_data]
    simp [data_append, List.append_assoc]
  rw [htext]
  have hH : '$' ∉ ("UPDATE ").data ++ (table.data ++ (" SET ").data) :=
    no_dollar_append (by decide) (no_dollar_append htab (by decide))
  have hkeys1 : ∀ p ∈ pairs1, '$' ∉ p.1.data := by
    intro p hp
    obtain ⟨kv, hkv, hfst⟩ := List.mem_map.mp (List.of_mem_zip hp).1
    rw [← hfst]
    exact hkeys kv hkv
  have hkeys2 : ∀ p ∈ pairs2, '$' ∉ p.1.data := by
    intro p hp
    obtain ⟨kv, hkv, hfst⟩ := List.mem_map.mp (List.of_mem_zip hp).1
    rw [← hfst]
    exact hwkeys kv hkv
  have hnz1 : ∀ p ∈ pairs1, p.2 ≠ 0 := fun p hp =>
    mem_range'_one_ne_zero (List.of_mem_zip hp).2
  have hnz2 : ∀ p ∈ pairs2, p.2 ≠ 0 := by
    intro p hp
    have h := (List.of_mem_zip hp).2
    rw [List.mem_range'] at h
    obtain ⟨j, _, hj⟩ := h
    omega
  rw [scanPh_append_no_dollar _ _ hH,
    scanPh_condSegs ", " _ pairs1 (by decide) (by decide) (by decide) hkeys1 hnz1
      (noDigitHead_append_left (" WHERE ").data _ (by decide) (by decide)),
    scanPh_append_no_dollar (" WHERE ").data _ (by decide),
    scanPh_condSegs " AND " _ pairs2 (by decide) (by decide) (by decide) hkeys2 hnz2
      (noDigitHead_cons (by decide) _),
    scanPh_no_dollar (";").data (by decide)]
  have hs1 : pairs1.map Prod.snd = List.range' 1 data.length := by
    rw [hp1, List.map_snd_zip _ _ (by simp [List.length_range']), hkl]
  have hs2 : pairs2.map Prod.snd = List.range' (1 + data.length) w.length := by
    rw [hp2, List.map_snd_zip _ _ (by simp [List.length_range']), hkl, hwl]
  rw [hs1, hs2]
  have hlen : (data.map Prod.snd ++ w.map Prod.snd).length = w.length + data.length := by
    simp [Nat.add_comm]
  rw [hlen]
  have happ := List.range'_append_1 1 data.length w.length
  simp only [List.append_nil]
  rw [Nat.add_comm 1 data.length] at happ
  rw [Nat.add_comm 1 data.length]
  exact happ

theorem mem_range'_shift_ne_zero {s n i : Nat} (h : i ∈ List.range' (s + 1) n) : i ≠ 0 := by
  rw [List.mem_range'] at h
  obtain ⟨j, _, rfl⟩ := h
  omega

theorem flatten_length_uniform {k : Nat} :
    ∀ vs : List (List JSV), (∀ r ∈ vs, r.length = k) → vs.flatten.length = vs.length * k := by
  intro vs
  induction vs with
  | nil => intro _; simp
  | cons r rest ih =>
    intro hall
    rw [List.flatten_cons, List.length_append, hall r (List.mem_cons_self _ _),
      ih (fun q hq => hall q (List.mem_cons_of_mem _ hq)), List.length_cons, Nat.succ_mul]
    omega

theorem scanPh_bulkRows (k : Nat) :
    ∀ (vs : List (List JSV)) (a : Nat) (t : List Char),
      (∀ r ∈ vs, r.length = k) → noDigitHead t →
      scanPh ((joinSep ", " (mapIdxFrom
          (fun i row => "(" ++ joinSep ", "
            (mapIdxFrom (fun j _ => "$" ++ natStr (i * k + j + 1)) 0 row) ++ ")") a vs)).data ++ t)
        = List.range' (a * k + 1) (vs.length * k) ++ scanPh t := by
  intro vs
  induction vs with
  | nil =>
    intro a t _ ht
    simp [mapIdxFrom, joinSep_nil]
  | cons r rest ih =>
    intro a t hlen ht
    have hJ : mapIdxFrom (fun j _ => "$" ++ natStr (a * k + j + 1)) 0 r
        = (List.range' (a * k + 1) k).map (fun x => "$" ++ natStr x) := by
      rw [mapIdxFrom_fn, hlen r (List.mem_cons_self _ _)]
      have h1 : ((List.range' 0 k).map (fun j => "$" ++ natStr (a * k + j + 1)))
          = ((List.range' 0 k).map (fun j => "$" ++ natStr (j + (a * k + 1)))) := by
        apply List.map_congr_left
        intro j _
        have h : a * k + j + 1 = j + (a * k + 1) := by omega
        rw [h]
      rw [h1]
      simpa using range'_map_shift k (fun x => "$" ++ natStr x) 0 (a * k + 1)
    have hsegs := fun (t' : List Char) (ht' : noDigitHead t') =>
      scanPh_segsFor [] (", ").data t' (List.range' (a * k + 1) k) (by decide) (by decide)
        (by decide) (fun i hi => mem_range'_shift_ne_zero hi) ht'
    cases rest with
    | nil =>
      rw [mapIdxFrom, mapIdxFrom, joinSep_single, hJ]
      have hdata : (("(" ++ joinSep ", " ((List.range' (a * k + 1) k).map (fun x => "$" ++ natStr x)) ++ ")").data) ++ t
          = '(' :: (phSegs (segsFor [] (", ").data (List.range' (a * k + 1) k)) ++ (')' :: t)) := by
        rw [← joinSep_ph_data]
        simp [data_append, List.append_assoc]
      rw [hdata, scanPh_cons_ne _ _ (by decide), hsegs (')' :: t) (noDigitHead_cons (by decide) _),
        scanPh_cons_ne _ _ (by decide)]
      simp [Nat.one_mul]
    | cons r2 rest2 =>
      rw [mapIdxFrom, joinSep_cons_of_ne _ _ _ (by simp [mapIdxFrom]), hJ]
      have hdata : (("(" ++ joinSep ", " ((List.range' (a * k + 1) k).map (fun x => "$" ++ natStr x)) ++ ")") ++ ", " ++
            joinSep ", " (mapIdxFrom
              (fun i row => "(" ++ joinSep ", "
                (mapIdxFrom (fun j _ => "$" ++ natStr (i * k + j + 1)) 0 row) ++ ")") (a + 1) (r2 :: rest2))).data ++ t
          = '(' :: (phSegs (segsFor [] (", ").data (List.range' (a * k + 1) k)) ++
              (')' :: ',' :: ' ' ::
                ((joinSep ", " (mapIdxFrom
                  (fun i row => "(" ++ joinSep ", "
                    (mapIdxFrom (fun j _ => "$" ++ natStr (i * k + j + 1)) 0 row) ++ ")") (a + 1) (r2 :: rest2))).data ++ t))) := by
        rw [← joinSep_ph_data]
        simp [data_append, List.append_assoc]
      rw [hdata, scanPh_cons_ne _ _ (by decide), hsegs _ (noDigitHead_cons (by decide) _),
        scanPh_cons_ne _ _ (by decide), scanPh_cons_ne _ _ (by decide),
        scanPh_cons_ne _ _ (by decide),
        ih (a + 1) t (fun q hq => hlen q (List.mem_cons_of_mem _ hq)) ht]
      rw [← List.append_assoc]
      have happ := List.range'_append_1 (a * k + 1) k ((r2 :: rest2).length * k)
      have h1 : a * k + 1 + k = (a + 1) * k + 1 := by
        rw [Nat.succ_mul]
        omega
      rw [h1] at happ
      rw [happ]
      have h2 : (r2 :: rest2).length * k + k = (r :: r2 :: rest2).length * k := by
        simp only [List.length_cons]
        ring
      rw [h2]

theorem scanPh_insertBulkStmt (table : String) (dataArray : List Row)
    (htab : '$' ∉ table.data) (hkeys : ∀ kv ∈ dataArray.headI, '$' ∉ kv.1.data) :
    scanPh (insertBulkStmt table dataArray).1.data
      = List.range' 1 (insertBulkStmt table dataArray).2.length := by
  simp only [insertBulkStmt]
  set keys := (dataArray.headI).map Prod.fst with hkeysdef
  set values := dataArray.map (fun obj => keys.map (fun k => getProp obj k)) with hvalsdef
  have hvlen : ∀ r ∈ values, r.length = keys.length := by
    intro r hr
    obtain ⟨obj, _, rfl⟩ := List.mem_map.mp hr
    exact List.length_map _ _
  have hflat : values.flatten.length = values.length * keys.length :=
    flatten_length_uniform values hvlen
  rw [hflat]
  have htext : ("INSERT INTO " ++ table ++ " (" ++ joinSep ", " keys ++ ") VALUES " ++
        joinSep ", " (mapIdxFrom
          (fun i row => "(" ++ joinSep ", "
            (mapIdxFrom (fun j _ => "$" ++ natStr (i * keys.length + j + 1)) 0 row) ++ ")") 0 values) ++
        " RETURNING *;").data
      = (("INSERT INTO ").data ++ (table.data ++ ((" (").data ++
          ((joinSep ", " keys).data ++ (") VALUES ").data))))
        ++ ((joinSep ", " (mapIdxFrom
            (fun i row => "(" ++ joinSep ", "
              (mapIdxFrom (fun j _ => "$" ++ natStr (i * keys.length + j + 1)) 0 row) ++ ")") 0 values)).data
          ++ (" RETURNING *;").data) := by
    simp [data_append, List.append_assoc]
  rw [htext]
  have hH : '$' ∉ ("INSERT INTO ").data ++ (table.data ++ ((" (").data ++
      ((joinSep ", " keys).data ++ (") VALUES ").data))) := by
    refine no_dollar_append (by decide) (no_dollar_append htab (no_dollar_append (by decide)
      (no_dollar_append ?_ (by decide))))
    refine joinSep_no_dollar _ _ (by decide) ?_
    intro s hs
    obtain ⟨kv, hkv, rfl⟩ := List.mem_map.mp hs
    exact hkeys kv hkv
  rw [scanPh_append_no_dollar _ _ hH,
    scanPh_bulkRows keys.length values 0 (" RETURNING *;").data hvlen (by decide),
    scanPh_no_dollar _ (by decide)]
  simp

/-- The statement form the specification prescribes for a single-row
insert: keys listed in order, placeholders one through n. -/
def insertTemplate (table : String) (keys : List String) : String :=
  "INSERT INTO " ++ table ++ " (" ++ joinSep ", " keys ++ ") VALUES (" ++
    joinSep ", " ((List.range' 1 keys.length).map (fun i => "$" ++ natStr i)) ++
    ") RETURNING *;"

/-- The statement form the specification prescribes for a select with an
empty filter: no WHERE clause. -/
def selectAllTemplate (table : String) : String :=
  "SELECT * FROM " ++ table ++ ";"

/-- The statement form the specification prescribes for a select with a
non-empty filter: conjunctive equality conditions numbered from one. -/
def selectWhereTemplate (table : String) (keys : List String) : String :=
  "SELECT * FROM " ++ table ++ " WHERE " ++
    joinSep " AND " ((keys.zip (List.range' 1 keys.length)).map
      (fun p => p.1 ++ " = $" ++ natStr p.2)) ++ ";"

/-- The statement form the specification prescribes for an update: SET
placeholders one through m, WHERE placeholders continuing at m plus one. -/
def updateTemplate (table : String) (setKeys whereKeys : List String) : String :=
  "UPDATE " ++ table ++ " SET " ++
    joinSep ", " ((setKeys.zip (List.range' 1 setKeys.length)).map
      (fun p => p.1 ++ " = $" ++ natStr p.2)) ++
    " WHERE " ++
    joinSep " AND " ((whereKeys.zip (List.range' (setKeys.length + 1) whereKeys.length)).map
      (fun p => p.1 ++ " = $" ++ natStr p.2)) ++ ";"

/-- The statement form the specification prescribes for a bulk insert of m
rows over k first-row keys: row i, column j carries placeholder number
i times k plus j plus one (row-major). -/
def bulkTemplate (table : String) (keys : List String) (m : Nat) : String :=
  "INSERT INTO " ++ table ++ " (" ++ joinSep ", " keys ++ ") VALUES " ++
    joinSep ", " ((List.range' 0 m).map (fun i =>
      "(" ++ joinSep ", " ((List.range' 0 keys.length).map
        (fun j => "$" ++ natStr (i * keys.length + j + 1))) ++ ")")) ++
    " RETURNING *;"

theorem insertStmt_eq (table : String) (data : List (String × JSV)) :
    insertStmt table data
      = (insertTemplate table (data.map Prod.fst), data.map Prod.snd) := by
  simp only [insertStmt, insertTemplate]
  rw [mapIdxFrom_fn]
  have h := range'_map_shift (data.map Prod.fst).length (fun x => "$" ++ natStr x) 0 1
  simp only [Nat.zero_add] at h
  rw [h]

theorem string_eq_of_data (s t : String) (h : s.data = t.data) : s = t := by
  calc s = String.mk s.data := rfl
    _ = String.mk t.data := by rw [h]
    _ = t := rfl

theorem cond_join_ne_empty (sep : String) (pairs : List (String × Nat)) (h : pairs ≠ []) :
    joinSep sep (pairs.map (fun p => p.1 ++ " = $" ++ natStr p.2)) ≠ "" := by
  intro hc
  have hd := congrArg String.data hc
  rw [joinSep_cond_data] at hd
  cases pairs with
  | nil => exact h rfl
  | cons q r =>
    rw [condSegs] at hd
    exact phSegs_cons_ne_nil _ _ _ (by simpa using hd)

theorem selectStmt_nil (table : String) :
    selectStmt table [] = (selectAllTemplate table, []) := by
  simp [selectStmt, selectAllTemplate, mapIdxFrom, joinSep_nil]

theorem selectStmt_ne_nil (table : String) (w : List (String × JSV)) (hw : w ≠ []) :
    selectStmt table w
      = (selectWhereTemplate table (w.map Prod.fst), w.map Prod.snd) := by
  simp only [selectStmt, selectWhereTemplate]
  have hT : mapIdxFrom (fun i key => key ++ " = $" ++ natStr (i + 1)) 0 (w.map Prod.fst)
      = (((w.map Prod.fst).zip (List.range' 1 (w.map Prod.fst).length)).map
          (fun p => p.1 ++ " = $" ++ natStr p.2)) := by
    simpa using mapIdxFrom_token (w.map Prod.fst) 1 0
  rw [hT]
  have hne : ((w.map Prod.fst).zip (List.range' 1 (w.map Prod.fst).length)) ≠ [] := by
    cases w with
    | nil => exact absurd rfl hw
    | cons kv w' => simp [List.range'_succ]
  rw [if_neg (cond_join_ne_empty " AND " _ hne)]
  refine congrArg (fun s => (s, w.map Prod.snd)) (string_eq_of_data _ _ ?_)
  simp [data_append, List.append_assoc]

theorem updateStmt_eq (table : String) (data w : List (String × JSV)) :
    updateStmt table data w
      = (updateTemplate table (data.map Prod.fst) (w.map Prod.fst),
          data.map Prod.snd ++ w.map Prod.snd) := by
  simp only [updateStmt, updateTemplate]
  have hS : mapIdxFrom (fun i key => key ++ " = $" ++ natStr (i + 1)) 0 (data.map Prod.fst)
      = (((data.map Prod.fst).zip (List.range' 1 (data.map Prod.fst).length)).map
          (fun p => p.1 ++ " = $" ++ natStr p.2)) := by
    simpa using mapIdxFrom_token (data.map Prod.fst) 1 0
  have hWcong : mapIdxFrom
        (fun i key => key ++ " = $" ++ natStr (i + 1 + (data.map Prod.fst).length)) 0
        (w.map Prod.fst)
      = mapIdxFrom
        (fun i key => key ++ " = $" ++ natStr (i + ((data.map Prod.fst).length + 1))) 0
        (w.map Prod.fst) := by
    apply mapIdxFrom_congr
    intro i k
    have h : i + 1 + (data.map Prod.fst).length = i + ((data.map Prod.fst).length + 1) := by
      omega
    rw [h]
  have hW : mapIdxFrom
        (fun i key => key ++ " = $" ++ natStr (i + ((data.map Prod.fst).length + 1))) 0
        (w.map Prod.fst)
      = (((w.map Prod.fst).zip
            (List.range' ((data.map Prod.fst).length + 1) (w.map Prod.fst).length)).map
          (fun p => p.1 ++ " = $" ++ natStr p.2)) := by
    simpa using mapIdxFrom_token (w.map Prod.fst) ((data.map Prod.fst).length + 1) 0
  rw [hS, hWcong, hW]

theorem mapIdxFrom_rowTok (k : Nat) (vs : List (List JSV)) (hlen : ∀ r ∈ vs, r.length = k) :
    ∀ a : Nat, mapIdxFrom (fun i row => "(" ++ joinSep ", "
        (mapIdxFrom (fun j _ => "$" ++ natStr (i * k + j + 1)) 0 row) ++ ")") a vs
      = (List.range' a vs.length).map (fun i => "(" ++ joinSep ", "
          ((List.range' 0 k).map (fun j => "$" ++ natStr (i * k + j + 1))) ++ ")") := by
  induction vs with
  | nil => intro a; rfl
  | cons r rest ih =>
    intro a
    rw [mapIdxFrom, List.length_cons, List.range'_succ, List.map_cons,
      ih (fun q hq => hlen q (List.mem_cons_of_mem _ hq)) (a + 1),
      mapIdxFrom_fn, hlen r (List.mem_cons_self _ _)]

theorem insertBulkStmt_text (table : String) (dataArray : List Row) :
    (insertBulkStmt table dataArray).1
      = bulkTemplate table ((dataArray.headI).map Prod.fst) dataArray.length := by
  simp only [insertBulkStmt, bulkTemplate]
  rw [mapIdxFrom_rowTok ((dataArray.headI).map Prod.fst).length _ ?hl 0]
  · simp
  case hl =>
    intro r hr
    obtain ⟨obj, _, rfl⟩ := List.mem_map.mp hr
    exact List.length_map _ _

theorem getProp_keys_eq (row : Row) (hnd : (row.map Prod.fst).Nodup) :
    (row.map Prod.fst).map (fun k => getProp row k) = row.map Prod.snd := by
  induction row with
  | nil => rfl
  | cons kv row' ih =>
    obtain ⟨k0, v0⟩ := kv
    rw [List.map_cons, List.map_cons, List.map_cons]
    simp only [List.map_cons, List.nodup_cons] at hnd
    have hhead : getProp ((k0, v0) :: row') k0 = v0 := by
      simp [getProp, List.lookup]
    have htail : (row'.map Prod.fst).map (fun k => getProp ((k0, v0) :: row') k)
        = (row'.map Prod.fst).map (fun k => getProp row' k) := by
      apply List.map_congr_left
      intro k hk
      have hne : k ≠ k0 := by
        intro hkk
        exact hnd.1 (hkk ▸ hk)
      have hbeq : (k == k0) = false := beq_eq_false_iff_ne.mpr hne
      simp [getProp, List.lookup, hbeq]
    rw [hhead, htail, ih hnd.2]

theorem insertBulkStmt_values (table : String) (r0 : Row) (rest : List Row)
    (hshape : ∀ r ∈ r0 :: rest, r.map Prod.fst = r0.map Prod.fst)
    (hnd : (r0.map Prod.fst).Nodup) :
    (insertBulkStmt table (r0 :: rest)).2
      = ((r0 :: rest).map (List.map Prod.snd)).flatten := by
  simp only [insertBulkStmt]
  congr 1
  apply List.map_congr_left
  intro r hr
  have hk : (r.map Prod.fst) = ((r0 :: rest).headI).map Prod.fst := hshape r hr
  have hnd' : (r.map Prod.fst).Nodup := by
    rw [hk]
    exact hnd
  calc (((r0 :: rest).headI).map Prod.fst).map (fun k => getProp r k)
      = (r.map Prod.fst).map (fun k => getProp r k) := by rw [hk]
    _ = r.map Prod.snd := getProp_keys_eq r hnd'

/-- The anchored pattern of the drop and createDB name check, written out
as code-point ranges: capital letters (65 to 90), small letters (97 to
122), digits (48 to 57) and the underscore, one or more characters. -/
def matchesIdentPattern (s : String) : Prop :=
  s.data ≠ [] ∧ ∀ c ∈ s.data,
    (65 ≤ c.val ∧ c.val ≤ 90) ∨ (97 ≤ c.val ∧ c.val ≤ 122) ∨
      (48 ≤ c.val ∧ c.val ≤ 57) ∨ c = '_'

instance (s : String) : Decidable (matchesIdentPattern s) :=
  decidable_of_iff (s.data ≠ [] ∧ ∀ c ∈ s.data,
    (65 ≤ c.val ∧ c.val ≤ 90) ∨ (97 ≤ c.val ∧ c.val ≤ 122) ∨
      (48 ≤ c.val ∧ c.val ≤ 57) ∨ c = '_') Iff.rfl

theorem validNameRegex_iff (s : String) :
    validNameRegex s = true ↔ matchesIdentPattern s := by
  rw [validNameRegex, matchesIdentPattern]
  simp only [Bool.and_eq_true, Bool.not_eq_true', List.isEmpty_eq_false,
    List.all_eq_true, Bool.or_eq_true, Char.isAlphanum, Char.isAlpha, Char.isDigit,
    Char.isUpper, Char.isLower, ge_iff_le, decide_eq_true_eq, beq_iff_eq]
  constructor
  · rintro ⟨h1, h2⟩
    refine ⟨h1, fun c hc => ?_⟩
    rcases h2 c hc with ((h | h) | h) | h
    · exact Or.inl h
    · exact Or.inr (Or.inl h)
    · exact Or.inr (Or.inr (Or.inl h))
    · exact Or.inr (Or.inr (Or.inr h))
  · rintro ⟨h1, h2⟩
    refine ⟨h1, fun c hc => ?_⟩
    rcases h2 c hc with h | h | h | h
    · exact Or.inl (Or.inl (Or.inl h))
    · exact Or.inl (Or.inl (Or.inr h))
    · exact Or.inl (Or.inr h)
    · exact Or.inr h

theorem wrapOp_fst (r : OpRes β) (msg : String) : (wrapOp r msg).1 = r.1 := by
  rw [wrapOp]
  cases r.2 <;> rfl

/-- A database capability that accepts every statement and returns no
rows; used to instantiate universally quantified theorems. -/
def okDB : DB := fun _ _ => Except.ok []

/-- A database capability that rejects every statement; used to exercise
the error-wrapping paths. -/
def boomDB : DB := fun _ _ => Except.error "boom"

/-- Claim C9: every call of the query wrapper acquires exactly one
connection from the pool, executes exactly one statement on it, and
releases the connection as the final event on every exit path — both when
execution succeeds and when it throws — with the rows or the error of that
single execution propagated unchanged after the release. -/
theorem query_connection_lifecycle (db : DB) (text : String) (params : List JSV) :
    (query db text params).1 = [Ev.acquire, Ev.exec text params, Ev.release] ∧
    (query db text params).1.count Ev.acquire = 1 ∧
    ((query db text params).1.countP (fun e => match e with
      | Ev.exec _ _ => true
      | _ => false)) = 1 ∧
    (query db text params).1.getLast? = some Ev.release ∧
    (query db text params).2 = db text params := by
  refine ⟨rfl, ?_, ?_, rfl, rfl⟩
  · simp [query, tryFinallyEv, List.count_cons]
  · simp [query, tryFinallyEv, List.countP_cons]

/-- Claim C10: dropColumn given a plain string column builds exactly the
same alter statement, with the same result, as dropColumn given the
one-element array of that column: the string is normalized into a list
before delegating to alterTable. -/
theorem dropColumn_single_eq_list (db : DB) (table c : String) :
    dropColumn db table (ColArg.single c) = dropColumn db table (ColArg.list [c]) := rfl

/-- Option holding no entries at all: the JS field is either absent or a
present-but-empty object or array. -/
def emptyish (o : Option (List α)) : Prop := o = none ∨ o = some []

/-- Claim C7: an alter-table request whose combined change set is empty
throws the validation error and issues no statement; in particular
addColumns and modifyColumns with an empty mapping and dropColumn with an
empty array all fail without a statement reaching the capability. -/
theorem empty_alteration_validation (db : DB) (table : String) :
    (∀ changes : Changes, emptyish changes.add → emptyish changes.drop →
      emptyish changes.modify →
      alterTable db table changes = ([], Except.error "No valid alterations provided.")) ∧
    addColumns db table []
      = ([], Except.error ("Failed to add \x27[object Object]\x27 to \x27" ++ table ++ "\x27.")) ∧
    modifyColumns db table [] = ([], Except.error "Failed to execute database query.") ∧
    dropColumn db table (ColArg.list [])
      = ([], Except.error "No valid alterations provided.") := by
  refine ⟨?_, ?_, ?_, ?_⟩
  · intro ch h1 h2 h3
    rcases h1 with h1 | h1 <;> rcases h2 with h2 | h2 <;> rcases h3 with h3 | h3 <;>
      simp [alterTable, h1, h2, h3]
  · simp [addColumns, alterTable, wrapOp]
  · simp [modifyColumns, alterTable, wrapOp]
  · simp [dropColumn, alterTable]

/-- Witness for C7 at a concrete empty change set. -/
theorem empty_alteration_validation_witness :
    alterTable okDB "users" { add := some [], drop := none, modify := some [] }
      = ([], Except.error "No valid alterations provided.") :=
  (empty_alteration_validation okDB "users").1 _ (Or.inr rfl) (Or.inl rfl) (Or.inr rfl)

/-- Claim C6: for every string matching the identifier pattern, createDB
and both drop forms construct and issue their statement (and the exported
wrappers issue exactly that statement); for every other string all three
throw their validation error with an empty statement trace, before
anything reaches the capability. -/
theorem ddl_name_validation (db : DB) (s : String) :
    (matchesIdentPattern s →
      createDB db s = runQuery db ("CREATE DATABASE " ++ s) [] ∧
      drop db "table" s = runQuery db ("DROP TABLE IF EXISTS " ++ s) [] ∧
      drop db "database" s = runQuery db ("DROP DATABASE IF EXISTS " ++ s) [] ∧
      (createDatabase db s).1 = [("CREATE DATABASE " ++ s, [])] ∧
      (dropTable db s).1 = [("DROP TABLE IF EXISTS " ++ s, [])] ∧
      (dropDatabase db s).1 = [("DROP DATABASE IF EXISTS " ++ s, [])]) ∧
    (¬ matchesIdentPattern s →
      createDB db s = ([], Except.error "Invalid database name") ∧
      drop db "table" s
        = ([], Except.error "Invalid name provided. Only alphanumeric characters and underscores are allowed.") ∧
      drop db "database" s
        = ([], Except.error "Invalid name provided. Only alphanumeric characters and underscores are allowed.") ∧
      createDatabase db s = ([], Except.error "Failed to execute database query.") ∧
      dropTable db s = ([], Except.error "Failed to execute database query.") ∧
      dropDatabase db s = ([], Except.error "Failed to execute database query.")) := by
  constructor
  · intro h
    have hv : validNameRegex s = true := (validNameRegex_iff s).mpr h
    refine ⟨?_, ?_, ?_, ?_, ?_, ?_⟩ <;>
      simp [createDB, drop, createDatabase, dropTable, dropDatabase, wrapOp_fst,
        runQuery, hv]
  · intro h
    have hv : validNameRegex s = false := by
      cases hb : validNameRegex s with
      | true => exact absurd ((validNameRegex_iff s).mp hb) h
      | false => rfl
    refine ⟨?_, ?_, ?_, ?_, ?_, ?_⟩ <;>
      simp [createDB, drop, createDatabase, dropTable, dropDatabase, wrapOp,
        runQuery, hv]

/-- Witness for C6: a valid identifier is issued, invalid strings fail. -/
theorem ddl_name_validation_witness :
    (createDatabase okDB "app_db").1 = [("CREATE DATABASE " ++ "app_db", [])] ∧
    createDB okDB "bad name" = ([], Except.error "Invalid database name") ∧
    drop okDB "table" "x;y"
      = ([], Except.error "Invalid name provided. Only alphanumeric characters and underscores are allowed.") :=
  ⟨((ddl_name_validation okDB "app_db").1 (by decide)).2.2.2.1,
   ((ddl_name_validation okDB "bad name").2 (by decide)).1,
   ((ddl_name_validation okDB "x;y").2 (by decide)).2.1⟩

/-- A database capability answering every statement with one fixed row;
used to instantiate theorems about returned rows. -/
def rowDB : DB := fun _ _ => Except.ok [[("a", JSV.num 1)]]

/-- Claim C2: for every table and non-array mapping, insertIntoTable
issues exactly the prescribed INSERT statement — keys in enumeration
order, placeholders one through n — bound to the values in the same
order, and returns the first element of the rows the database returned. -/
theorem insertIntoTable_single_row (db : DB) (table : String)
    (data : List (String × JSV)) (rows : List Row)
    (h : db (insertTemplate table (data.map Prod.fst)) (data.map Prod.snd)
      = Except.ok rows) :
    insertIntoTable db table (InsertData.obj data)
      = ([(insertTemplate table (data.map Prod.fst), data.map Prod.snd)],
          Except.ok (InsertResult.one rows.head?)) := by
  have hu : insert db table data
      = ([(insertTemplate table (data.map Prod.fst), data.map Prod.snd)],
          Except.ok rows.head?) := by
    rw [insert, insertStmt_eq]
    simp only [runQuery]
    rw [h]
    rfl
  simp [insertIntoTable, wrapOp, Except.map, hu]

/-- Witness for C2 at a concrete table and mapping. -/
theorem insertIntoTable_single_row_witness :
    insertIntoTable rowDB "users" (InsertData.obj [("a", JSV.num 1), ("b", JSV.num 2)])
      = ([(insertTemplate "users" ["a", "b"], [JSV.num 1, JSV.num 2])],
          Except.ok (InsertResult.one (some [("a", JSV.num 1)]))) :=
  insertIntoTable_single_row rowDB "users" [("a", JSV.num 1), ("b", JSV.num 2)]
    [[("a", JSV.num 1)]] rfl

/-- Claim C4: updateTable issues exactly the prescribed UPDATE statement —
SET placeholders one through m, WHERE placeholders continuing at m plus
one, never restarting — bound to the SET values followed by the WHERE
values, and on success returns unit: no rows and no affected-row count. -/
theorem updateTable_set_where_numbering (db : DB) (table : String)
    (data w : List (String × JSV)) (rows : List Row)
    (h : db (updateTemplate table (data.map Prod.fst) (w.map Prod.fst))
        (data.map Prod.snd ++ w.map Prod.snd) = Except.ok rows) :
    updateTable db table data w
      = ([(updateTemplate table (data.map Prod.fst) (w.map Prod.fst),
            data.map Prod.snd ++ w.map Prod.snd)], Except.ok ()) := by
  have hu : update db table data w
      = ([(updateTemplate table (data.map Prod.fst) (w.map Prod.fst),
            data.map Prod.snd ++ w.map Prod.snd)], Except.ok ()) := by
    rw [update, updateStmt_eq]
    simp only [runQuery]
    rw [h]
    rfl
  simp [updateTable, wrapOp, Except.map, hu]

/-- Witness for C4: one SET entry and one WHERE entry give SET a = one and
WHERE id = two bound to the two values in order. -/
theorem updateTable_set_where_numbering_witness :
    updateTable rowDB "users" [("a", JSV.num 5)] [("id", JSV.num 1)]
      = ([(updateTemplate "users" ["a"] ["id"], [JSV.num 5, JSV.num 1])],
          Except.ok ()) :=
  updateTable_set_where_numbering rowDB "users" [("a", JSV.num 5)] [("id", JSV.num 1)]
    [[("a", JSV.num 1)]] rfl

/-- Claim C5: selectFromTable with an empty (or omitted, which defaults to
empty) filter issues SELECT star with no WHERE clause and no parameters
and returns all rows; with a non-empty filter it issues the conjunctive
equality WHERE clause bound to the filter values in order. -/
theorem selectFromTable_filter_behavior (db : DB) (table : String) :
    (∀ rows : List Row, db (selectAllTemplate table) [] = Except.ok rows →
      selectFromTable db table [] = ([(selectAllTemplate table, [])], Except.ok rows)) ∧
    (∀ (w : List (String × JSV)) (rows : List Row), w ≠ [] →
      db (selectWhereTemplate table (w.map Prod.fst)) (w.map Prod.snd) = Except.ok rows →
      selectFromTable db table w
        = ([(selectWhereTemplate table (w.map Prod.fst), w.map Prod.snd)],
            Except.ok rows)) := by
  constructor
  · intro rows h
    have hu : select db table [] = ([(selectAllTemplate table, [])], Except.ok rows) := by
      rw [select, selectStmt_nil]
      simp only [runQuery]
      rw [h]
    simp [selectFromTable, wrapOp, hu]
  · intro w rows hw h
    have hu : select db table w
        = ([(selectWhereTemplate table (w.map Prod.fst), w.map Prod.snd)],
            Except.ok rows) := by
      rw [select, selectStmt_ne_nil table w hw]
      simp only [runQuery]
      rw [h]
    simp [selectFromTable, wrapOp, hu]

/-- Witness for C5: empty filter and a one-entry filter at a concrete
table. -/
theorem selectFromTable_filter_behavior_witness :
    selectFromTable rowDB "users" []
      = ([(selectAllTemplate "users", [])], Except.ok [[("a", JSV.num 1)]]) ∧
    selectFromTable rowDB "users" [("a", JSV.num 1)]
      = ([(selectWhereTemplate "users" ["a"], [JSV.num 1])],
          Except.ok [[("a", JSV.num 1)]]) :=
  ⟨(selectFromTable_filter_behavior rowDB "users").1 [[("a", JSV.num 1)]] rfl,
   (selectFromTable_filter_behavior rowDB "users").2 [("a", JSV.num 1)]
     [[("a", JSV.num 1)]] (by decide) rfl⟩

/-- Claim C3: for a non-empty array of row mappings sharing the first
row's key set (without duplicate keys), insertIntoTable issues exactly one
multi-row INSERT whose placeholder for row i and column j is number
i times k plus j plus one in row-major order, binds the values flattened
in the same row-major order, and returns all rows the database returned. -/
theorem insertIntoTable_bulk_rows (db : DB) (table : String) (r0 : Row)
    (rest : List Row) (rows : List Row)
    (hshape : ∀ r ∈ r0 :: rest, r.map Prod.fst = r0.map Prod.fst)
    (hnd : (r0.map Prod.fst).Nodup)
    (h : db (bulkTemplate table (r0.map Prod.fst) (r0 :: rest).length)
        (((r0 :: rest).map (List.map Prod.snd)).flatten) = Except.ok rows) :
    insertIntoTable db table (InsertData.arr (r0 :: rest))
      = ([(bulkTemplate table (r0.map Prod.fst) (r0 :: rest).length,
            ((r0 :: rest).map (List.map Prod.snd)).flatten)],
          Except.ok (InsertResult.many rows)) := by
  have htext : (insertBulkStmt table (r0 :: rest)).1
      = bulkTemplate table (r0.map Prod.fst) (r0 :: rest).length :=
    insertBulkStmt_text table (r0 :: rest)
  have hvals := insertBulkStmt_values table r0 rest hshape hnd
  have hb : insertBulk db table (r0 :: rest)
      = ([(bulkTemplate table (r0.map Prod.fst) (r0 :: rest).length,
            ((r0 :: rest).map (List.map Prod.snd)).flatten)], Except.ok rows) := by
    rw [insertBulk, if_neg (by simp)]
    simp only [runQuery]
    rw [htext, hvals, h]
  simp [insertIntoTable, wrapOp, Except.map, hb]

/-- Witness for C3: two one-column rows give placeholders one and two for
column a and both returned rows. -/
theorem insertIntoTable_bulk_rows_witness :
    insertIntoTable rowDB "users"
        (InsertData.arr [[("a", JSV.num 1)], [("a", JSV.num 2)]])
      = ([(bulkTemplate "users" ["a"] 2, [JSV.num 1, JSV.num 2])],
          Except.ok (InsertResult.many [[("a", JSV.num 1)]])) :=
  insertIntoTable_bulk_rows rowDB "users" [("a", JSV.num 1)] [[("a", JSV.num 2)]]
    [[("a", JSV.num 1)]] (by decide) (by decide) rfl

/-- Claim C1: every parameterized statement built by insert, select with a
non-empty filter, update and insertBulk carries placeholders that scan
from the SQL text as exactly the numbers one through n in strictly
sequential order — no gaps, no repeats — where n is the length of the
bound-value list. The hypotheses embody the data-model assumption that
table names and keys are safe SQL identifiers, hence free of dollar
signs. -/
theorem placeholders_sequential_and_counted :
    (∀ (table : String) (data : List (String × JSV)), '$' ∉ table.data →
      (∀ kv ∈ data, '$' ∉ kv.1.data) →
      scanPh (insertStmt table data).1.data
        = List.range' 1 (insertStmt table data).2.length) ∧
    (∀ (table : String) (w : List (String × JSV)), w ≠ [] → '$' ∉ table.data →
      (∀ kv ∈ w, '$' ∉ kv.1.data) →
      scanPh (selectStmt table w).1.data
        = List.range' 1 (selectStmt table w).2.length) ∧
    (∀ (table : String) (data w : List (String × JSV)), '$' ∉ table.data →
      (∀ kv ∈ data, '$' ∉ kv.1.data) → (∀ kv ∈ w, '$' ∉ kv.1.data) →
      scanPh (updateStmt table data w).1.data
        = List.range' 1 (updateStmt table data w).2.length) ∧
    (∀ (table : String) (dataArray : List Row), '$' ∉ table.data →
      (∀ kv ∈ dataArray.headI, '$' ∉ kv.1.data) →
      scanPh (insertBulkStmt table dataArray).1.data
        = List.range' 1 (insertBulkStmt table dataArray).2.length) :=
  ⟨scanPh_insertStmt, scanPh_selectStmt, scanPh_updateStmt, scanPh_insertBulkStmt⟩

/-- Witness for C1: the four builders at concrete inputs. -/
theorem placeholders_sequential_and_counted_witness :
    scanPh (insertStmt "users" [("a", JSV.num 1), ("b", JSV.num 2)]).1.data
      = List.range' 1 (insertStmt "users" [("a", JSV.num 1), ("b", JSV.num 2)]).2.length ∧
    scanPh (selectStmt "users" [("a", JSV.num 1)]).1.data
      = List.range' 1 (selectStmt "users" [("a", JSV.num 1)]).2.length ∧
    scanPh (updateStmt "users" [("a", JSV.num 5)] [("id", JSV.num 1)]).1.data
      = List.range' 1 (updateStmt "users" [("a", JSV.num 5)] [("id", JSV.num 1)]).2.length ∧
    scanPh (insertBulkStmt "users" [[("a", JSV.num 1)], [("a", JSV.num 2)]]).1.data
      = List.range' 1 (insertBulkStmt "users" [[("a", JSV.num 1)], [("a", JSV.num 2)]]).2.length :=
  ⟨placeholders_sequential_and_counted.1 "users" _ (by decide) (by decide),
   placeholders_sequential_and_counted.2.1 "users" _ (by decide) (by decide) (by decide),
   placeholders_sequential_and_counted.2.2.1 "users" _ _ (by decide) (by decide) (by decide),
   placeholders_sequential_and_counted.2.2.2 "users" _ (by decide) (by decide)⟩

theorem wrapOp_error (r : OpRes β) (msg e : String) (h : r.2 = Except.error e) :
    wrapOp r msg = (r.1, Except.error msg) := by
  rw [wrapOp, h]

/-- Counterexample for claim C8 as stated: the exported dropColumn has no
try-catch, so on an input whose underlying alterTable call throws,
dropColumn surfaces exactly the underlying validation error — identical to
the error of the direct alterTable call — instead of re-throwing any
generic operation-named error. -/
theorem dropColumn_propagates_underlying_error :
    dropColumn okDB "users" (ColArg.list [])
      = ([], Except.error "No valid alterations provided.") ∧
    alterTable okDB "users" { add := none, drop := some [], modify := none }
      = ([], Except.error "No valid alterations provided.") := by
  constructor <;> rfl

/-- Claim C8 amended: every exported operation except dropColumn catches
any failure of its underlying builder call and re-throws that operation's
fixed generic error, discarding the original message; dropColumn alone
propagates the underlying error unchanged (see the counterexample). -/
theorem exported_ops_rethrow_generic :
    (∀ (db : DB) (t : String) (cols : List (String × String)) (e : String),
      (create db t cols).2 = Except.error e →
      createTable db t cols
        = ((create db t cols).1, Except.error "Failed to execute database query.")) ∧
    (∀ (db : DB) (n : String) (e : String),
      (createDB db n).2 = Except.error e →
      createDatabase db n
        = ((createDB db n).1, Except.error "Failed to execute database query.")) ∧
    (∀ (db : DB) (n : String) (e : String),
      (drop db "table" n).2 = Except.error e →
      dropTable db n
        = ((drop db "table" n).1, Except.error "Failed to execute database query.")) ∧
    (∀ (db : DB) (n : String) (e : String),
      (drop db "database" n).2 = Except.error e →
      dropDatabase db n
        = ((drop db "database" n).1, Except.error "Failed to execute database query.")) ∧
    (∀ (db : DB) (t : String) (cols : List (String × String)) (e : String),
      (alterTable db t { add := some cols, drop := none, modify := none }).2
          = Except.error e →
      addColumns db t cols
        = ((alterTable db t { add := some cols, drop := none, modify := none }).1,
            Except.error ("Failed to add \x27[object Object]\x27 to \x27" ++ t ++ "\x27."))) ∧
    (∀ (db : DB) (t : String) (cols : List (String × String)) (e : String),
      (alterTable db t { add := none, drop := none, modify := some cols }).2
          = Except.error e →
      modifyColumns db t cols
        = ((alterTable db t { add := none, drop := none, modify := some cols }).1,
            Except.error "Failed to execute database query.")) ∧
    (∀ (db : DB) (t : String) (w : List (String × JSV)) (e : String),
      (select db t w).2 = Except.error e →
      selectFromTable db t w
        = ((select db t w).1, Except.error "Failed to execute database query.")) ∧
    (∀ (db : DB) (t : String) (d : List (String × JSV)) (e : String),
      (insert db t d).2 = Except.error e →
      insertIntoTable db t (InsertData.obj d)
        = ((insert db t d).1, Except.error ("Failed to insert into \x27" ++ t ++ "\x27."))) ∧
    (∀ (db : DB) (t : String) (arr : List Row) (e : String),
      (insertBulk db t arr).2 = Except.error e →
      insertIntoTable db t (InsertData.arr arr)
        = ((insertBulk db t arr).1,
            Except.error ("Failed to insert into \x27" ++ t ++ "\x27."))) ∧
    (∀ (db : DB) (t : String) (d w : List (String × JSV)) (e : String),
      (update db t d w).2 = Except.error e →
      updateTable db t d w
        = ((update db t d w).1, Except.error "Failed to update the table.")) := by
  refine ⟨?_, ?_, ?_, ?_, ?_, ?_, ?_, ?_, ?_, ?_⟩
  · intro db t cols e h
    exact wrapOp_error _ _ _ h
  · intro db n e h
    exact wrapOp_error _ _ _ h
  · intro db n e h
    exact wrapOp_error _ _ _ h
  · intro db n e h
    exact wrapOp_error _ _ _ h
  · intro db t cols e h
    exact wrapOp_error _ _ _ h
  · intro db t cols e h
    exact wrapOp_error _ _ _ h
  · intro db t w e h
    exact wrapOp_error _ _ _ h
  · intro db t d e h
    have h2 : ((insert db t d).1, (insert db t d).2.map InsertResult.one).2
        = Except.error e := by
      simp [h, Except.map]
    exact wrapOp_error _ _ _ h2
  · intro db t arr e h
    have h2 : ((insertBulk db t arr).1, (insertBulk db t arr).2.map InsertResult.many).2
        = Except.error e := by
      simp [h, Except.map]
    exact wrapOp_error _ _ _ h2
  · intro db t d w e h
    exact wrapOp_error _ _ _ h

/-- Witness for the amended C8: a failing capability at concrete inputs
for every wrapped operation. -/
theorem exported_ops_rethrow_generic_witness :
    createTable boomDB "t" [("a", "int")]
      = ((create boomDB "t" [("a", "int")]).1,
          Except.error "Failed to execute database query.") ∧
    createDatabase boomDB "db1"
      = ((createDB boomDB "db1").1, Except.error "Failed to execute database query.") ∧
    dropTable boomDB "t"
      = ((drop boomDB "table" "t").1, Except.error "Failed to execute database query.") ∧
    dropDatabase boomDB "t"
      = ((drop boomDB "database" "t").1,
          Except.error "Failed to execute database query.") ∧
    addColumns boomDB "t" [("a", "int")]
      = ((alterTable boomDB "t" { add := some [("a", "int")], drop := none, modify := none }).1,
          Except.error "Failed to add \x27[object Object]\x27 to \x27t\x27.") ∧
    modifyColumns boomDB "t" [("a", "int")]
      = ((alterTable boomDB "t" { add := none, drop := none, modify := some [("a", "int")] }).1,
          Except.error "Failed to execute database query.") ∧
    selectFromTable boomDB "t" []
      = ((select boomDB "t" []).1, Except.error "Failed to execute database query.") ∧
    insertIntoTable boomDB "t" (InsertData.obj [("a", JSV.num 1)])
      = ((insert boomDB "t" [("a", JSV.num 1)]).1,
          Except.error "Failed to insert into \x27t\x27.") ∧
    insertIntoTable boomDB "t" (InsertData.arr [[("a", JSV.num 1)]])
      = ((insertBulk boomDB "t" [[("a", JSV.num 1)]]).1,
          Except.error "Failed to insert into \x27t\x27.") ∧
    updateTable boomDB "t" [("a", JSV.num 1)] [("id", JSV.num 2)]
      = ((update boomDB "t" [("a", JSV.num 1)] [("id", JSV.num 2)]).1,
          Except.error "Failed to update the table.") :=
  ⟨exported_ops_rethrow_generic.1 boomDB "t" [("a", "int")] "boom" rfl,
   exported_ops_rethrow_generic.2.1 boomDB "db1" "boom" rfl,
   exported_ops_rethrow_generic.2.2.1 boomDB "t" "boom" rfl,
   exported_ops_rethrow_generic.2.2.2.1 boomDB "t" "boom" rfl,
   exported_ops_rethrow_generic.2.2.2.2.1 boomDB "t" [("a", "int")] "boom" rfl,
   exported_ops_rethrow_generic.2.2.2.2.2.1 boomDB "t" [("a", "int")] "boom" rfl,
   exported_ops_rethrow_generic.2.2.2.2.2.2.1 boomDB "t" [] "boom" rfl,
   exported_ops_rethrow_generic.2.2.2.2.2.2.2.1 boomDB "t" [("a", JSV.num 1)] "boom" rfl,
   exported_ops_rethrow_generic.2.2.2.2.2.2.2.2.1 boomDB "t" [[("a", JSV.num 1)]] "boom" rfl,
   exported_ops_rethrow_generic.2.2.2.2.2.2.2.2.2 boomDB "t" [("a", JSV.num 1)]
     [("id", JSV.num 2)] "boom" rfl⟩

end PgHelper
